import Mathlib

/-!
Shallow embedding of the sampling-and-reconciliation core of
`modern_task_manager.py` (class `ModernTaskManager`): the data sources
(`get_processes`, `get_services`, `get_performance_data`), the reconciler
(`update_ui`, `restore_scroll_positions`) and the sampler loop
(`update_data`).  OS reads, the subprocess call and the GTK widgets are
modelled as explicit inputs / explicit state; everything else follows the
Python line by line.
-/

namespace MTM

/-- One row of the processes list store: `(name, pid, status, user,
cpu_percent, memory_percent)`, as appended by `get_processes`. -/
structure ProcessRecord where
  name : String
  pid : Int
  status : String
  username : String
  cpu_percent : Rat
  memory_percent : Rat
deriving DecidableEq, Repr

/-- One row of the services list store: `(name, status, description, pid)`,
as appended by `get_services`. -/
structure ServiceRecord where
  name : String
  status : String
  description : String
  pid : String
deriving DecidableEq, Repr

/-- Outcome of reading one entry of `psutil.process_iter(...)` inside the
`try` of `get_processes`: either the record is read, or the access raises
`psutil.NoSuchProcess` / `psutil.AccessDenied`. -/
inductive ProcFetch where
  | ok : ProcessRecord → ProcFetch
  | noSuchProcess : ProcFetch
  | accessDenied : ProcFetch
deriving DecidableEq, Repr

/-- The loop body of `get_processes`: `try: processes.append(...)
except (psutil.NoSuchProcess, psutil.AccessDenied): continue`. -/
def procStep (processes : List ProcessRecord) (p : ProcFetch) :
    List ProcessRecord :=
  match p with
  | .ok r => processes ++ [r]
  | .noSuchProcess => processes
  | .accessDenied => processes

/-- Body of `get_processes`: appends each readable record, skips entries whose read
raises (`except (psutil.NoSuchProcess, psutil.AccessDenied): continue`). -/
def get_processes (iter : List ProcFetch) : List ProcessRecord :=
  iter.foldl procStep []

/-- Outcome of `subprocess.run(['systemctl', ...], capture_output=True,
text=True)`: either some exception was raised (binary absent, import
failure, ...) — caught by the bare `except:` — or a completed process with
a return code and captured stdout.  `subprocess.run` is called without
`check=True`, so a non-zero exit status does NOT raise. -/
inductive SubprocessResult where
  | raised : SubprocessResult
  | completed : Int → String → SubprocessResult
deriving DecidableEq, Repr

/-- Python whitespace for `str.split()` / `str.strip()`. -/
def pyIsSpace (c : Char) : Bool :=
  c = ' ' || c = '\t' || c = '\n' || c = '\x0b' || c = '\x0c' || c = '\r'

/-- Split a character list at every separator, keeping empty pieces
(`"a,,b".split(',') == ['a', '', 'b']`, `"".split(',') == ['']`). -/
def splitChars (sep : Char → Bool) : List Char → List (List Char)
  | [] => [[]]
  | c :: rest =>
      match splitChars sep rest with
      | [] => if sep c then [[], []] else [[c]]
      | t :: ts => if sep c then [] :: t :: ts else (c :: t) :: ts

/-- Python `line.split()`: split on whitespace runs, dropping empty pieces. -/
def pySplitWs (s : String) : List String :=
  ((splitChars pyIsSpace s.data).filter (fun t => ¬ t.isEmpty)).map
    (fun t => ⟨t⟩)

/-- Truthiness of `line.strip()`: the line has some non-whitespace char. -/
def stripNonempty (s : String) : Bool :=
  s.data.any (fun c => ¬ pyIsSpace c)

/-- Python `result.stdout.split('\n')` (keeps empty pieces). -/
def pyLines (s : String) : List String :=
  (splitChars (fun c => c = '\n') s.data).map (fun t => ⟨t⟩)

/-- The `except:` fallback list of `get_services`. -/
def fallback_services : List ServiceRecord :=
  [⟨"ssh.service", "active", "OpenSSH Server", "1234"⟩,
   ⟨"cron.service", "active", "Cron Daemon", "5678"⟩,
   ⟨"nginx.service", "active", "Web Server", "9012"⟩]

/-- The record (if any) contributed by one line of the loop body of
`get_services`: `if line.strip(): parts = line.split();
if len(parts) >= 4: services.append((parts[0], parts[3],
"System Service", "N/A"))`. -/
def parse_service_line (line : String) : Option ServiceRecord :=
  if stripNonempty line then
    let parts := pySplitWs line
    if h : 4 ≤ parts.length then
      some ⟨parts.get ⟨0, by omega⟩, parts.get ⟨3, by omega⟩,
            "System Service", "N/A"⟩
    else none
  else none

/-- The loop body of `get_services` applied to one line of `lines[1:6]`. -/
def serviceStep (services : List ServiceRecord) (line : String) :
    List ServiceRecord :=
  match parse_service_line line with
  | some r => services ++ [r]
  | none => services

/-- Body of `get_services`: on a completed subprocess, split stdout into lines and
scan `lines[1:6]` with the loop body above; if anything in the `try` block
raised, return the fallback list. -/
def get_services (result : SubprocessResult) : List ServiceRecord :=
  match result with
  | .raised => fallback_services
  | .completed _returncode stdout =>
      let lines := pyLines stdout
      ((lines.drop 1).take 5).foldl serviceStep []

/-- The OS readings consumed by `get_performance_data`:
`psutil.cpu_percent(interval=0.1)`, `psutil.virtual_memory()`,
`psutil.disk_usage('/')` and the already-formatted
`datetime.fromtimestamp(psutil.boot_time()).strftime(...)` string.
Byte counts are exact naturals; percentages are passed through unchanged. -/
structure PerfInputs where
  cpu_percent : Rat
  memory_percent : Rat
  memory_used_bytes : Nat
  memory_total_bytes : Nat
  disk_percent : Rat
  disk_used_bytes : Nat
  disk_total_bytes : Nat
  boot_time : String
deriving DecidableEq, Repr

/-- The dict returned by `get_performance_data`. -/
structure PerfData where
  cpu_percent : Rat
  memory_percent : Rat
  memory_used : Nat
  memory_total : Nat
  disk_percent : Rat
  disk_used : Nat
  disk_total : Nat
  boot_time : String
deriving DecidableEq, Repr

/-- Body of `get_performance_data`: percentages pass through; byte counts are
converted with Python `// (1024**3)` (floor division on ints = `Nat.div`). -/
def get_performance_data (inp : PerfInputs) : PerfData :=
  { cpu_percent := inp.cpu_percent
    memory_percent := inp.memory_percent
    memory_used := inp.memory_used_bytes / (1024 ^ 3)
    memory_total := inp.memory_total_bytes / (1024 ^ 3)
    disk_percent := inp.disk_percent
    disk_used := inp.disk_used_bytes / (1024 ^ 3)
    disk_total := inp.disk_total_bytes / (1024 ^ 3)
    boot_time := inp.boot_time }

/-- Python `round(x)` tie-to-even, applied to `q * 10`: the integer of
tenths displayed by a `:.1f` format of an exact value. -/
def roundTenths (q : Rat) : Int :=
  let x := q * 10
  let f : Int := x.floor
  if x - f < 1 / 2 then f
  else if 1 / 2 < x - f then f + 1
  else if f % 2 = 0 then f else f + 1

/-- Python `:.1f` rendering of a (nonnegative) percentage value. -/
def format1f (q : Rat) : String :=
  let n := roundTenths q
  toString (n / 10) ++ "." ++ toString (n % 10)

/-- The status-bar line pushed at the end of `update_ui`. -/
def status_line (processCount : Nat) (cpu mem : Rat) : String :=
  "Processes: " ++ toString processCount ++
  " | CPU: " ++ format1f cpu ++ "% | Memory: " ++ format1f mem ++ "%"

/-- The widget state touched by the reconciler: the two list stores with
their tree-view selections (an index into the rows, if any row is
selected), the saved scroll positions (`self.processes_scroll_pos`,
`self.services_scroll_pos`), the current values of the two scrolled
windows' vertical adjustments, the performance widgets' displayed data and
the status bar text. -/
structure UIState where
  process_rows : List ProcessRecord
  process_selection : Option Nat
  service_rows : List ServiceRecord
  service_selection : Option Nat
  processes_scroll_pos : Rat
  services_scroll_pos : Rat
  processes_adjustment : Rat
  services_adjustment : Rat
  performance_shown : Option PerfData
  status_text : String
deriving DecidableEq, Repr

/-- Capture step `process_model[process_iter][1] if process_iter else None`: the PID of
the currently selected process row. -/
def captured_pid (st : UIState) : Option Int :=
  match st.process_selection with
  | some i => (st.process_rows.get? i).map (fun r => r.pid)
  | none => none

/-- Capture step `services_model[services_iter][0] if services_iter else None`: the name
of the currently selected service row. -/
def captured_service (st : UIState) : Option String :=
  match st.service_selection with
  | some i => (st.service_rows.get? i).map (fun r => r.name)
  | none => none

/-- Loop `for i, row in enumerate(rows): if match: select(row); break` — index
of the first row satisfying `q`, if any. -/
def firstMatchIdx {α : Type} (q : α → Bool) : List α → Option Nat
  | [] => none
  | a :: rest => if q a then some 0 else (firstMatchIdx q rest).map (· + 1)

/-- Guard `if selected_pid:`, then the restore loop over the repopulated process
list.  Python truthiness: `None` and `0` both skip the restore block, so
the selection stays cleared. -/
def restored_process_selection (selected_pid : Option Int)
    (processes : List ProcessRecord) : Option Nat :=
  match selected_pid with
  | some p => if p ≠ 0 then firstMatchIdx (fun r => r.pid = p) processes else none
  | none => none

/-- Guard `if selected_service:`, then the restore loop over the repopulated
services list.  Python truthiness: `None` and `""` both skip the block. -/
def restored_service_selection (selected_service : Option String)
    (services : List ServiceRecord) : Option Nat :=
  match selected_service with
  | some nm => if nm ≠ "" then firstMatchIdx (fun r => r.name = nm) services else none
  | none => none

/-- Body of `restore_scroll_positions`: set both vertical adjustments to the saved
scroll positions (the `value-changed` handlers then write the same value
back into `processes_scroll_pos` / `services_scroll_pos`). -/
def restore_scroll_positions (st : UIState) : UIState :=
  { st with
    processes_adjustment := st.processes_scroll_pos
    services_adjustment := st.services_scroll_pos }

/-- Body of `update_ui(processes, services, performance)`: capture the selected
identities, clear and repopulate both list stores (clearing a `ListStore`
drops its tree view's selection), restore selections by first PID/name
match guarded by truthiness, update the performance widgets, restore the
scroll positions and push the status line. -/
def update_ui (st : UIState) (processes : List ProcessRecord)
    (services : List ServiceRecord) (performance : PerfData) : UIState :=
  let selected_pid := captured_pid st
  let selected_service := captured_service st
  restore_scroll_positions
    { st with
      process_rows := processes
      process_selection := restored_process_selection selected_pid processes
      service_rows := services
      service_selection := restored_service_selection selected_service services
      performance_shown := some performance
      status_text := status_line processes.length
        performance.cpu_percent performance.memory_percent }

/-- The observable steps of one iteration of `update_thread`. -/
inductive SampleEvent where
  | captureProcesses
  | captureServices
  | capturePerformance
  | dispatchSnapshot
  | sleepInterval
deriving DecidableEq, Repr

/-- One iteration of the `while True:` body of `update_thread`, in source
order: `get_processes()`, `get_services()`, `get_performance_data()`,
`GLib.idle_add(self.update_ui, ...)`, `time.sleep(self.update_interval)`. -/
def update_thread_cycle : List SampleEvent :=
  [.captureProcesses, .captureServices, .capturePerformance,
   .dispatchSnapshot, .sleepInterval]

/-- The event trace of the first `n` iterations of `update_thread`. -/
def update_thread_trace : Nat → List SampleEvent
  | 0 => []
  | n + 1 => update_thread_cycle ++ update_thread_trace n

/-- The record a single `process_iter` entry contributes, if its read
succeeded. -/
def ProcFetch.record? : ProcFetch → Option ProcessRecord
  | .ok r => some r
  | .noSuchProcess => none
  | .accessDenied => none

/-- The PIDs of the entries of a `process_iter` run whose reads succeed,
in enumeration order. -/
def enumeratedPids (iter : List ProcFetch) : List Int :=
  iter.filterMap (fun p => (ProcFetch.record? p).map (fun r => r.pid))

/-! ### Concrete fixtures used by counterexamples and witnesses -/

/-- An all-zero performance reading. -/
def zeroPerf : PerfData :=
  { cpu_percent := 0, memory_percent := 0, memory_used := 0, memory_total := 0
    disk_percent := 0, disk_used := 0, disk_total := 0, boot_time := "" }

/-- A process row whose PID is 0 (falsy in Python). -/
def pidZeroRow : ProcessRecord :=
  ⟨"kernel_task", 0, "running", "root", 0, 0⟩

/-- A service row whose name is the empty string (falsy in Python). -/
def unnamedServiceRow : ServiceRecord :=
  ⟨"", "active", "System Service", "N/A"⟩

/-- A view state in which the pid-0 process row and the empty-named service
row are both selected. -/
def falsySelectionState : UIState :=
  { process_rows := [pidZeroRow], process_selection := some 0
    service_rows := [unnamedServiceRow], service_selection := some 0
    processes_scroll_pos := 0, services_scroll_pos := 0
    processes_adjustment := 0, services_adjustment := 0
    performance_shown := none, status_text := "" }

/-- A process record with PID 10, used to exhibit duplicate enumeration. -/
def dupRow : ProcessRecord :=
  ⟨"worker", 10, "running", "root", 0, 0⟩

/-- A second process record, PID 7. -/
def otherRow : ProcessRecord :=
  ⟨"other", 7, "sleeping", "root", 0, 0⟩

/-- A parsed-shape service row named ssh.service. -/
def sshRow : ServiceRecord :=
  ⟨"ssh.service", "active", "System Service", "N/A"⟩

/-- A parsed-shape service row named cron.service. -/
def cronRow : ServiceRecord :=
  ⟨"cron.service", "active", "System Service", "N/A"⟩

/-- A view state in which the PID-10 process row and the ssh.service row
are selected. -/
def selectedTenState : UIState :=
  { process_rows := [dupRow], process_selection := some 0
    service_rows := [sshRow], service_selection := some 0
    processes_scroll_pos := 2, services_scroll_pos := 3
    processes_adjustment := 0, services_adjustment := 0
    performance_shown := none, status_text := "" }

/-! ### Helper lemmas -/

theorem foldl_procStep (iter : List ProcFetch) (acc : List ProcessRecord) :
    iter.foldl procStep acc = acc ++ iter.filterMap ProcFetch.record? := by
  induction iter generalizing acc with
  | nil => simp
  | cons a rest ih =>
    cases a <;> simp [procStep, ProcFetch.record?, ih]

theorem get_processes_eq_filterMap (iter : List ProcFetch) :
    get_processes iter = iter.filterMap ProcFetch.record? := by
  rw [get_processes, foldl_procStep]
  rfl

theorem foldl_serviceStep (lines : List String) (acc : List ServiceRecord) :
    lines.foldl serviceStep acc = acc ++ lines.filterMap parse_service_line := by
  induction lines generalizing acc with
  | nil => simp
  | cons line rest ih =>
    rw [List.foldl_cons, List.filterMap_cons]
    cases h : parse_service_line line <;> simp [serviceStep, h, ih]

theorem get_services_completed (rc : Int) (stdout : String) :
    get_services (.completed rc stdout) =
      (((pyLines stdout).drop 1).take 5).filterMap parse_service_line := by
  rw [get_services, foldl_serviceStep]
  rfl

theorem firstMatchIdx_some {α : Type} (q : α → Bool) (l : List α) (i : Nat)
    (h : firstMatchIdx q l = some i) :
    ∃ a, l.get? i = some a ∧ q a = true := by
  induction l generalizing i with
  | nil => simp [firstMatchIdx] at h
  | cons a rest ih =>
    rw [firstMatchIdx] at h
    by_cases hq : q a
    · rw [if_pos hq] at h
      cases h
      exact ⟨a, rfl, hq⟩
    · rw [if_neg hq] at h
      rcases Option.map_eq_some'.mp h with ⟨j, hj, rfl⟩
      obtain ⟨b, hb, hqb⟩ := ih j hj
      exact ⟨b, by simpa using hb, hqb⟩

theorem firstMatchIdx_eq_none_iff {α : Type} (q : α → Bool) (l : List α) :
    firstMatchIdx q l = none ↔ ∀ a ∈ l, q a = false := by
  induction l with
  | nil => simp [firstMatchIdx]
  | cons a rest ih =>
    rw [firstMatchIdx]
    by_cases hq : q a
    · simp [if_pos hq, hq]
    · simp only [if_neg hq, Option.map_eq_none', ih]
      constructor
      · intro hall b hb
        rcases List.mem_cons.mp hb with rfl | hb
        · exact Bool.eq_false_iff.mpr hq
        · exact hall b hb
      · intro hall b hb
        exact hall b (List.mem_cons_of_mem a hb)

theorem firstMatchIdx_isSome {α : Type} (q : α → Bool) (l : List α)
    (a : α) (ha : a ∈ l) (hq : q a = true) :
    ∃ i, firstMatchIdx q l = some i := by
  cases h : firstMatchIdx q l with
  | some i => exact ⟨i, rfl⟩
  | none =>
    have := (firstMatchIdx_eq_none_iff q l).mp h a ha
    rw [hq] at this
    cases this

theorem firstMatchIdx_first {α : Type} (q : α → Bool) (l : List α) (i : Nat)
    (h : firstMatchIdx q l = some i) :
    ∀ k, k < i → ∀ a, l.get? k = some a → q a = false := by
  induction l generalizing i with
  | nil => simp [firstMatchIdx] at h
  | cons a rest ih =>
    rw [firstMatchIdx] at h
    by_cases hq : q a
    · rw [if_pos hq] at h
      cases h
      intro k hk
      omega
    · rw [if_neg hq] at h
      rcases Option.map_eq_some'.mp h with ⟨j, hj, rfl⟩
      intro k hk b hb
      cases k with
      | zero =>
        cases hb
        exact Bool.eq_false_iff.mpr hq
      | succ k =>
        exact ih j hj k (by omega) b (by simpa using hb)

theorem update_ui_process_selection (st : UIState)
    (procs : List ProcessRecord) (servs : List ServiceRecord)
    (perf : PerfData) :
    (update_ui st procs servs perf).process_selection =
      restored_process_selection (captured_pid st) procs := rfl

theorem update_ui_service_selection (st : UIState)
    (procs : List ProcessRecord) (servs : List ServiceRecord)
    (perf : PerfData) :
    (update_ui st procs servs perf).service_selection =
      restored_service_selection (captured_service st) servs := rfl

theorem restored_process_selection_idem (c : Option Int)
    (procs : List ProcessRecord) :
    restored_process_selection
      (match restored_process_selection c procs with
       | some i => (procs.get? i).map (fun r => r.pid)
       | none => none) procs = restored_process_selection c procs := by
  cases hc : restored_process_selection c procs with
  | none => rfl
  | some i =>
    cases c with
    | none => simp [restored_process_selection] at hc
    | some p =>
      rw [restored_process_selection] at hc
      by_cases hp : p ≠ 0
      · rw [if_pos hp] at hc
        obtain ⟨r, hr, hrp⟩ := firstMatchIdx_some _ _ _ hc
        have hpid : r.pid = p := of_decide_eq_true hrp
        show restored_process_selection ((procs.get? i).map (fun r => r.pid))
          procs = some i
        rw [hr, Option.map_some', hpid, restored_process_selection,
          if_pos hp, hc]
      · rw [if_neg hp] at hc
        cases hc

theorem restored_service_selection_idem (c : Option String)
    (servs : List ServiceRecord) :
    restored_service_selection
      (match restored_service_selection c servs with
       | some i => (servs.get? i).map (fun r => r.name)
       | none => none) servs = restored_service_selection c servs := by
  cases hc : restored_service_selection c servs with
  | none => rfl
  | some i =>
    cases c with
    | none => simp [restored_service_selection] at hc
    | some nm =>
      rw [restored_service_selection] at hc
      by_cases hn : nm ≠ ""
      · rw [if_pos hn] at hc
        obtain ⟨r, hr, hrn⟩ := firstMatchIdx_some _ _ _ hc
        have hname : r.name = nm := of_decide_eq_true hrn
        show restored_service_selection ((servs.get? i).map (fun r => r.name))
          servs = some i
        rw [hr, Option.map_some', hname, restored_service_selection,
          if_pos hn, hc]
      · rw [if_neg hn] at hc
        cases hc

theorem update_thread_cycle_length : update_thread_cycle.length = 5 := rfl

theorem update_thread_trace_block (n : Nat) :
    ∀ k, k < n →
      ((update_thread_trace n).drop (5 * k)).take 5 = update_thread_cycle := by
  induction n with
  | zero => omega
  | succ n ih =>
    intro k hk
    cases k with
    | zero =>
      rw [update_thread_trace]
      simp [List.take_append_of_le_length, update_thread_cycle]
    | succ k =>
      rw [update_thread_trace]
      have h5 : 5 * (k + 1) = update_thread_cycle.length + 5 * k := by
        rw [update_thread_cycle_length]; ring
      rw [h5, List.drop_append]
      exact ih k (by omega)

/-! ### Claims -/

/-- C1 (counterexample): the external query exiting with a non-zero status
does not by itself produce the placeholder set.  `subprocess.run` is called
without `check=True`, so a non-zero exit raises nothing; with return code 1
and empty captured stdout, `get_services` parses the empty output and
returns the empty list, not the 3-item fallback. -/
theorem claim1_counterexample :
    get_services (.completed 1 "") = [] ∧
    get_services (.completed 1 "") ≠ fallback_services := by
  refine ⟨by decide, by decide⟩

/-- C1 (amended): `get_services` returns the fixed 3-record fallback
exactly when the `try` block raises (binary absent, invocation failure —
the bare `except:` catches everything, so no error propagates); the
fallback's name/status pairs are exactly ssh.service/active,
cron.service/active, nginx.service/active.  A completed query is parsed
from its captured stdout regardless of the exit status: the return code is
ignored. -/
theorem claim1_fallback_on_raise :
    get_services .raised = fallback_services ∧
    fallback_services.map (fun r => (r.name, r.status)) =
      [("ssh.service", "active"), ("cron.service", "active"),
       ("nginx.service", "active")] ∧
    ∀ rc stdout, get_services (.completed rc stdout) =
      get_services (.completed 0 stdout) := by
  refine ⟨rfl, rfl, fun rc stdout => ?_⟩
  rw [get_services_completed, get_services_completed]

/-- C2 (counterexample): `get_processes` drops nothing but failed reads.
If the enumeration yields the same record twice, both copies are kept, so
the snapshot contains two records with PID 10. -/
theorem claim2_counterexample :
    get_processes [.ok dupRow, .ok dupRow] = [dupRow, dupRow] ∧
    ¬ ((get_processes [.ok dupRow, .ok dupRow]).map
        (fun r => r.pid)).Nodup := by
  refine ⟨rfl, ?_⟩
  rw [show get_processes [.ok dupRow, .ok dupRow] = [dupRow, dupRow] from rfl]
  simp [dupRow]

/-- C2 (amended): `get_processes` performs no PID deduplication — its
output PIDs are exactly the PIDs of the successfully read entries, in
enumeration order.  Hence a snapshot's PIDs are free of duplicates
precisely when the enumeration itself yields pairwise distinct PIDs, as a
single point-in-time OS process-list read does. -/
theorem claim2_pids_exactly_enumerated (iter : List ProcFetch) :
    (get_processes iter).map (fun r => r.pid) = enumeratedPids iter ∧
    ((enumeratedPids iter).Nodup ↔
      ((get_processes iter).map (fun r => r.pid)).Nodup) := by
  have h : (get_processes iter).map (fun r => r.pid) = enumeratedPids iter := by
    rw [get_processes_eq_filterMap, enumeratedPids, List.map_filterMap]
  exact ⟨h, by rw [h]⟩

/-- C3 (counterexample): the restoration is keyed on Python truthiness, not
presence.  With the pid-0 process row selected and that same row present in
the new snapshot — and the empty-named service row likewise — `update_ui`
leaves both selections empty instead of re-selecting the matching rows. -/
theorem claim3_counterexample :
    captured_pid falsySelectionState = some 0 ∧
    pidZeroRow ∈ [pidZeroRow] ∧ pidZeroRow.pid = 0 ∧
    (update_ui falsySelectionState [pidZeroRow] [unnamedServiceRow]
      zeroPerf).process_selection = none ∧
    captured_service falsySelectionState = some "" ∧
    unnamedServiceRow ∈ [unnamedServiceRow] ∧ unnamedServiceRow.name = "" ∧
    (update_ui falsySelectionState [pidZeroRow] [unnamedServiceRow]
      zeroPerf).service_selection = none := by
  decide

/-- C3 (amended): for every previous view state whose selected process PID
`P` is nonzero, after `update_ui` the selection is on a row of the new
snapshot with PID `P` whenever one exists, and empty when none exists (no
arbitrary row); likewise for services keyed by a nonempty selected name.
(When the captured PID is 0 or the captured name is empty the selection is
simply cleared — see the truthiness claim.) -/
theorem claim3_selection_restoration :
    (∀ (st : UIState) (procs : List ProcessRecord)
        (servs : List ServiceRecord) (perf : PerfData) (P : Int),
        captured_pid st = some P → P ≠ 0 →
        ∀ r0, r0 ∈ procs → r0.pid = P →
        ∃ j r, (update_ui st procs servs perf).process_selection = some j ∧
          procs.get? j = some r ∧ r.pid = P) ∧
    (∀ (st : UIState) (procs : List ProcessRecord)
        (servs : List ServiceRecord) (perf : PerfData) (P : Int),
        captured_pid st = some P → P ≠ 0 →
        (∀ r ∈ procs, r.pid ≠ P) →
        (update_ui st procs servs perf).process_selection = none) ∧
    (∀ (st : UIState) (procs : List ProcessRecord)
        (servs : List ServiceRecord) (perf : PerfData) (nm : String),
        captured_service st = some nm → nm ≠ "" →
        ∀ s0, s0 ∈ servs → s0.name = nm →
        ∃ j s, (update_ui st procs servs perf).service_selection = some j ∧
          servs.get? j = some s ∧ s.name = nm) ∧
    (∀ (st : UIState) (procs : List ProcessRecord)
        (servs : List ServiceRecord) (perf : PerfData) (nm : String),
        captured_service st = some nm → nm ≠ "" →
        (∀ s ∈ servs, s.name ≠ nm) →
        (update_ui st procs servs perf).service_selection = none) := by
  refine ⟨?_, ?_, ?_, ?_⟩
  · intro st procs servs perf P hP hP0 r0 hr0 hr0P
    rw [update_ui_process_selection, hP, restored_process_selection,
      if_pos hP0]
    obtain ⟨i, hi⟩ := firstMatchIdx_isSome (fun r => decide (r.pid = P))
      procs r0 hr0 (decide_eq_true hr0P)
    obtain ⟨r, hr, hrP⟩ := firstMatchIdx_some _ _ _ hi
    exact ⟨i, r, hi, hr, of_decide_eq_true hrP⟩
  · intro st procs servs perf P hP hP0 habs
    rw [update_ui_process_selection, hP, restored_process_selection,
      if_pos hP0]
    exact (firstMatchIdx_eq_none_iff _ _).mpr
      (fun r hr => decide_eq_false (habs r hr))
  · intro st procs servs perf nm hnm hne s0 hs0 hs0n
    rw [update_ui_service_selection, hnm, restored_service_selection,
      if_pos hne]
    obtain ⟨i, hi⟩ := firstMatchIdx_isSome (fun s => decide (s.name = nm))
      servs s0 hs0 (decide_eq_true hs0n)
    obtain ⟨s, hs, hsn⟩ := firstMatchIdx_some _ _ _ hi
    exact ⟨i, s, hi, hs, of_decide_eq_true hsn⟩
  · intro st procs servs perf nm hnm hne habs
    rw [update_ui_service_selection, hnm, restored_service_selection,
      if_pos hne]
    exact (firstMatchIdx_eq_none_iff _ _).mpr
      (fun s hs => decide_eq_false (habs s hs))

/-- C3 (witness): with PID 10 selected, a new snapshot containing PID 10
re-selects a PID-10 row; a new snapshot without PID 10 leaves the selection
empty; the same for a selected ssh.service name. -/
theorem claim3_witness :
    (captured_pid selectedTenState = some 10 ∧ (10 : Int) ≠ 0 ∧
      (∃ j r, (update_ui selectedTenState [otherRow, dupRow] [cronRow]
          zeroPerf).process_selection = some j ∧
        [otherRow, dupRow].get? j = some r ∧ r.pid = 10)) ∧
    (update_ui selectedTenState [otherRow] [cronRow]
      zeroPerf).process_selection = none ∧
    (∃ j s, (update_ui selectedTenState [otherRow] [cronRow, sshRow]
        zeroPerf).service_selection = some j ∧
      [cronRow, sshRow].get? j = some s ∧ s.name = "ssh.service") ∧
    (update_ui selectedTenState [otherRow] [cronRow]
      zeroPerf).service_selection = none := by
  refine ⟨⟨by decide, by decide,
    claim3_selection_restoration.1 selectedTenState [otherRow, dupRow]
      [cronRow] zeroPerf 10 (by decide) (by decide) dupRow (by decide)
      (by decide)⟩,
    claim3_selection_restoration.2.1 selectedTenState [otherRow] [cronRow]
      zeroPerf 10 (by decide) (by decide) (by decide),
    claim3_selection_restoration.2.2.1 selectedTenState [otherRow]
      [cronRow, sshRow] zeroPerf "ssh.service" (by decide) (by decide)
      sshRow (by decide) (by decide),
    claim3_selection_restoration.2.2.2 selectedTenState [otherRow] [cronRow]
      zeroPerf "ssh.service" (by decide) (by decide) (by decide)⟩

/-- C4: on a completed query, `get_services` scans exactly `lines[1:6]` —
the first 5 lines after the header — collecting, per line, the record of
`parse_service_line`; a line with fewer than 4 whitespace-separated fields
contributes nothing, and a nonempty line with at least 4 fields contributes
exactly one record whose name is field 0 and whose status is field 3
(description and pid are the constants). -/
theorem claim4_parse_window_and_fields :
    (∀ rc stdout, get_services (.completed rc stdout) =
      (((pyLines stdout).drop 1).take 5).filterMap parse_service_line) ∧
    (∀ line, (pySplitWs line).length < 4 → parse_service_line line = none) ∧
    (∀ line, stripNonempty line = true →
      ∀ h : 4 ≤ (pySplitWs line).length,
        parse_service_line line =
          some ⟨(pySplitWs line).get ⟨0, by omega⟩,
                (pySplitWs line).get ⟨3, by omega⟩,
                "System Service", "N/A"⟩) := by
  refine ⟨get_services_completed, fun line hlt => ?_, fun line hs h4 => ?_⟩
  · rw [parse_service_line]
    by_cases hstrip : stripNonempty line
    · rw [if_pos hstrip]
      rw [dif_neg (by omega)]
    · rw [if_neg hstrip]
  · rw [parse_service_line, if_pos hs, dif_pos h4]

/-- C4 (witness): a 2-field line is skipped; a 5-field data line yields the
record built from fields 0 and 3. -/
theorem claim4_witness :
    (pySplitWs "bad line").length < 4 ∧
    parse_service_line "bad line" = none ∧
    stripNonempty "ssh.service loaded active running OpenSSH" = true ∧
    parse_service_line "ssh.service loaded active running OpenSSH" =
      some ⟨"ssh.service", "running", "System Service", "N/A"⟩ := by
  refine ⟨by decide, claim4_parse_window_and_fields.2.1 _ (by decide),
    by decide, ?_⟩
  rw [claim4_parse_window_and_fields.2.2
    "ssh.service loaded active running OpenSSH" (by decide) (by decide)]
  decide

/-- C5: every reported gigabyte figure is the byte count integer-divided by
1024³ — a floor, never a round-up: `g * 1024³ ≤ bytes < (g + 1) * 1024³`.
In particular 1.9 GiB of used memory (⌊1.9 · 2³⁰⌋ = 2040109465 bytes)
reports as 1, not 2. -/
theorem claim5_gb_truncation :
    (∀ inp : PerfInputs,
      (get_performance_data inp).memory_used =
        inp.memory_used_bytes / 1024 ^ 3 ∧
      (get_performance_data inp).memory_total =
        inp.memory_total_bytes / 1024 ^ 3 ∧
      (get_performance_data inp).disk_used =
        inp.disk_used_bytes / 1024 ^ 3 ∧
      (get_performance_data inp).disk_total =
        inp.disk_total_bytes / 1024 ^ 3 ∧
      (get_performance_data inp).memory_used * 1024 ^ 3 ≤
        inp.memory_used_bytes ∧
      inp.memory_used_bytes <
        ((get_performance_data inp).memory_used + 1) * 1024 ^ 3) ∧
    (get_performance_data
      { cpu_percent := 0, memory_percent := 0
        memory_used_bytes := 2040109465, memory_total_bytes := 0
        disk_percent := 0, disk_used_bytes := 0, disk_total_bytes := 0
        boot_time := "" }).memory_used = 1 := by
  refine ⟨fun inp => ⟨rfl, rfl, rfl, rfl, ?_, ?_⟩, by decide⟩
  · rw [get_performance_data]
    exact Nat.div_mul_le_self _ _
  · rw [get_performance_data]
    have hb : (0 : Nat) < 1024 ^ 3 := by norm_num
    exact (Nat.div_lt_iff_lt_mul hb).mp (Nat.lt_succ_self _)

/-- C8: after `update_ui`, both vertical adjustments carry the prior view
state's saved scroll offsets verbatim — for every rational offset,
including offsets beyond the new content's range (no clamping anywhere in
the code) — and the saved offsets themselves are unchanged. -/
theorem claim8_scroll_verbatim (st : UIState) (procs : List ProcessRecord)
    (servs : List ServiceRecord) (perf : PerfData) :
    (update_ui st procs servs perf).processes_adjustment =
      st.processes_scroll_pos ∧
    (update_ui st procs servs perf).services_adjustment =
      st.services_scroll_pos ∧
    (update_ui st procs servs perf).processes_scroll_pos =
      st.processes_scroll_pos ∧
    (update_ui st procs servs perf).services_scroll_pos =
      st.services_scroll_pos := by
  refine ⟨rfl, rfl, rfl, rfl⟩

/-- C9: every record produced by the parsing (non-fallback) path of
`get_services` has description "System Service" and pid "N/A" — the real
description and PID are never extracted from the query output. -/
theorem claim9_constant_fields (rc : Int) (stdout : String)
    (r : ServiceRecord) (hr : r ∈ get_services (.completed rc stdout)) :
    r.description = "System Service" ∧ r.pid = "N/A" := by
  rw [get_services_completed] at hr
  obtain ⟨line, _, hline⟩ := List.mem_filterMap.mp hr
  rw [parse_service_line] at hline
  by_cases hstrip : stripNonempty line
  · rw [if_pos hstrip] at hline
    by_cases h4 : 4 ≤ (pySplitWs line).length
    · rw [dif_pos h4] at hline
      cases hline
      exact ⟨rfl, rfl⟩
    · rw [dif_neg h4] at hline
      cases hline
  · rw [if_neg hstrip] at hline
    cases hline

/-- C9 (witness): the record parsed from a concrete 5-field line is in the
output and indeed carries the constant description and pid. -/
theorem claim9_witness :
    (⟨"ssh.service", "running", "System Service", "N/A"⟩ : ServiceRecord) ∈
      get_services (.completed 0 "HDR\nssh.service loaded active running X") ∧
    (⟨"ssh.service", "running", "System Service", "N/A"⟩ :
      ServiceRecord).description = "System Service" ∧
    (⟨"ssh.service", "running", "System Service", "N/A"⟩ :
      ServiceRecord).pid = "N/A" := by
  have hmem : (⟨"ssh.service", "running", "System Service", "N/A"⟩ :
      ServiceRecord) ∈
      get_services (.completed 0 "HDR\nssh.service loaded active running X") := by
    decide
  have h := claim9_constant_fields 0 "HDR\nssh.service loaded active running X"
    _ hmem
  exact ⟨hmem, h.1, h.2⟩

/-- C6: `update_ui` is a pure function of `(view_state, snapshot)` — the
embedding has no other inputs, hence no hidden counters or randomness —
and applying it a second time to the state it produced, with the same
snapshot, changes nothing: rendered rows, restored selections, scroll
offsets and status line are all identical. -/
theorem claim6_idempotent (st : UIState) (procs : List ProcessRecord)
    (servs : List ServiceRecord) (perf : PerfData) :
    update_ui (update_ui st procs servs perf) procs servs perf =
      update_ui st procs servs perf := by
  have hp := restored_process_selection_idem (captured_pid st) procs
  have hs := restored_service_selection_idem (captured_service st) servs
  simp only [update_ui, restore_scroll_positions, captured_pid,
    captured_service] at hp hs ⊢
  rw [hp, hs]

/-- C7: each iteration of `update_thread` performs, in order, the process
capture, the service capture, the performance capture, the dispatch of the
assembled snapshot (`GLib.idle_add`) and only then the interval sleep;
consequently the first dispatched sample precedes any sleep in the trace. -/
theorem claim7_sampler_order (n : Nat) (hn : 0 < n) :
    (∀ k, k < n →
      ((update_thread_trace n).drop (5 * k)).take 5 = update_thread_cycle) ∧
    update_thread_cycle =
      [.captureProcesses, .captureServices, .capturePerformance,
       .dispatchSnapshot, .sleepInterval] ∧
    SampleEvent.dispatchSnapshot ∈ (update_thread_trace n).take 4 ∧
    SampleEvent.sleepInterval ∉ (update_thread_trace n).take 4 := by
  obtain ⟨m, rfl⟩ : ∃ m, n = m + 1 := ⟨n - 1, by omega⟩
  refine ⟨update_thread_trace_block (m + 1), rfl, ?_, ?_⟩
  · rw [update_thread_trace,
      List.take_append_of_le_length (by rw [update_thread_cycle_length]; omega)]
    decide
  · rw [update_thread_trace,
      List.take_append_of_le_length (by rw [update_thread_cycle_length]; omega)]
    decide

/-- C7 (witness): the ordering properties hold for the three-iteration
trace. -/
theorem claim7_witness :
    0 < 3 ∧
    ((∀ k, k < 3 →
      ((update_thread_trace 3).drop (5 * k)).take 5 = update_thread_cycle) ∧
    update_thread_cycle =
      [.captureProcesses, .captureServices, .capturePerformance,
       .dispatchSnapshot, .sleepInterval] ∧
    SampleEvent.dispatchSnapshot ∈ (update_thread_trace 3).take 4 ∧
    SampleEvent.sleepInterval ∉ (update_thread_trace 3).take 4) :=
  ⟨by decide, claim7_sampler_order 3 (by decide)⟩

/-- C10: the captured selection identity is tested for Python truthiness,
not for presence — a selected process row with PID 0, and a selected
service row with empty name, are never restored, even when a matching row
exists in the new snapshot; and whenever a row does get selected, it is the
first row in snapshot order matching the captured PID/name. -/
theorem claim10_truthiness_first_match :
    (∀ (st : UIState) (procs : List ProcessRecord)
        (servs : List ServiceRecord) (perf : PerfData),
        captured_pid st = some 0 →
        (update_ui st procs servs perf).process_selection = none) ∧
    (∀ (st : UIState) (procs : List ProcessRecord)
        (servs : List ServiceRecord) (perf : PerfData),
        captured_service st = some "" →
        (update_ui st procs servs perf).service_selection = none) ∧
    (∀ (st : UIState) (procs : List ProcessRecord)
        (servs : List ServiceRecord) (perf : PerfData) (j : Nat),
        (update_ui st procs servs perf).process_selection = some j →
        ∃ P r, captured_pid st = some P ∧ P ≠ 0 ∧
          procs.get? j = some r ∧ r.pid = P ∧
          ∀ k, k < j → ∀ r2, procs.get? k = some r2 → r2.pid ≠ P) ∧
    (∀ (st : UIState) (procs : List ProcessRecord)
        (servs : List ServiceRecord) (perf : PerfData) (j : Nat),
        (update_ui st procs servs perf).service_selection = some j →
        ∃ nm s, captured_service st = some nm ∧ nm ≠ "" ∧
          servs.get? j = some s ∧ s.name = nm ∧
          ∀ k, k < j → ∀ s2, servs.get? k = some s2 → s2.name ≠ nm) := by
  refine ⟨?_, ?_, ?_, ?_⟩
  · intro st procs servs perf h0
    rw [update_ui_process_selection, h0, restored_process_selection]
    simp
  · intro st procs servs perf h0
    rw [update_ui_service_selection, h0, restored_service_selection]
    simp
  · intro st procs servs perf j hj
    rw [update_ui_process_selection] at hj
    cases hP : captured_pid st with
    | none => rw [hP, restored_process_selection] at hj; cases hj
    | some P =>
      rw [hP, restored_process_selection] at hj
      by_cases hP0 : P ≠ 0
      · rw [if_pos hP0] at hj
        obtain ⟨r, hr, hrP⟩ := firstMatchIdx_some _ _ _ hj
        refine ⟨P, r, rfl, hP0, hr, of_decide_eq_true hrP, ?_⟩
        intro k hk r2 hr2
        have := firstMatchIdx_first _ _ _ hj k hk r2 hr2
        exact of_decide_eq_false this
      · rw [if_neg hP0] at hj
        cases hj
  · intro st procs servs perf j hj
    rw [update_ui_service_selection] at hj
    cases hN : captured_service st with
    | none => rw [hN, restored_service_selection] at hj; cases hj
    | some nm =>
      rw [hN, restored_service_selection] at hj
      by_cases hne : nm ≠ ""
      · rw [if_pos hne] at hj
        obtain ⟨s, hs, hsn⟩ := firstMatchIdx_some _ _ _ hj
        refine ⟨nm, s, rfl, hne, hs, of_decide_eq_true hsn, ?_⟩
        intro k hk s2 hs2
        have := firstMatchIdx_first _ _ _ hj k hk s2 hs2
        exact of_decide_eq_false this
      · rw [if_neg hne] at hj
        cases hj

/-- C10 (witness): the pid-0 and empty-name selections are dropped on the
concrete falsy state even though matching rows exist, and the selection
landing on index 1 of `[otherRow, dupRow]` is indeed the first PID-10
match. -/
theorem claim10_witness :
    ((update_ui falsySelectionState [pidZeroRow] [unnamedServiceRow]
      zeroPerf).process_selection = none ∧
    (update_ui falsySelectionState [pidZeroRow] [unnamedServiceRow]
      zeroPerf).service_selection = none) ∧
    (∃ P r, captured_pid selectedTenState = some P ∧ P ≠ 0 ∧
      [otherRow, dupRow].get? 1 = some r ∧ r.pid = P ∧
      ∀ k, k < 1 → ∀ r2, [otherRow, dupRow].get? k = some r2 →
        r2.pid ≠ P) ∧
    (∃ nm s, captured_service selectedTenState = some nm ∧ nm ≠ "" ∧
      [cronRow, sshRow].get? 1 = some s ∧ s.name = nm ∧
      ∀ k, k < 1 → ∀ s2, [cronRow, sshRow].get? k = some s2 →
        s2.name ≠ nm) :=
  ⟨⟨claim10_truthiness_first_match.1 falsySelectionState [pidZeroRow]
      [unnamedServiceRow] zeroPerf (by decide),
    claim10_truthiness_first_match.2.1 falsySelectionState [pidZeroRow]
      [unnamedServiceRow] zeroPerf (by decide)⟩,
    claim10_truthiness_first_match.2.2.1 selectedTenState [otherRow, dupRow]
      [cronRow, sshRow] zeroPerf 1 (by decide),
    claim10_truthiness_first_match.2.2.2 selectedTenState [otherRow, dupRow]
      [cronRow, sshRow] zeroPerf 1 (by decide)⟩

end MTM
